import Mathlib

/-!
Verification development for the products_bank repository.

The definitions below are a shallow embedding of the role-scoped sale
service of the backend:
  - constants from backend src utils constants.js
  - the sale service (buildWhereClause, findAllSales, createNewSale,
    updateSaleById, deleteSaleById, calculateTotalAmount) from the
    backend services
  - the user-deletion controller from backend controllers
  - the conditional rate rule of validateSaleCreate from the backend
    validation middleware.

Modelling conventions:
  - machine numbers are Nat (ids, role ids, timestamps) and Rat
    (decimal amounts and rates);
  - a JavaScript value that may be undefined or null is an Option;
    a patch field that distinguishes absent from null is an Option of
    an Option;
  - JavaScript truthiness on numbers (0 is falsy) and strings (the
    empty string is falsy) is made explicit by natTruthy, ratTruthy
    and strTruthy;
  - the persistent store is a Db record holding the product catalog,
    the franchise catalog and the list of sale rows; mutating
    operations thread the Db explicitly and return it unchanged on
    every error path;
  - the SQL clause ORDER BY createdAt DESC is modelled as a stable
    insertion sort of the matching rows by descending creation time;
    LIMIT and OFFSET become List.take and List.drop;
  - the JSON projection of a sale (joined product, franchise and user
    display names) is omitted: every claim is about the row fields,
    which the projection copies verbatim;
  - the sale service destructures SALE_STATUS from the constants
    module, which exports only SALE_STATUSES; the resulting undefined
    binding makes every evaluation of SALE_STATUS.OPEN raise a
    TypeError, modelled by the typeError error kind at the two places
    the source reads it (the estado default on create and the
    validStatuses array on update).
-/

namespace ProductsBank

/-- Role id of the administrator role, from constants.js. -/
def ROLES_ADMIN_ID : Nat := 1

/-- Role id of the advisor role, from constants.js. -/
def ROLES_ADVISOR_ID : Nat := 2

/-- Product id of Credito de Consumo, from constants.js. -/
def PRODUCTS_CONSUMER_CREDIT_ID : Nat := 1

/-- Product id of Libranza Libre Inversion, from constants.js. -/
def PRODUCTS_FREE_INVESTMENT_PAYROLL_ID : Nat := 2

/-- Product id of Tarjeta de Credito, from constants.js. -/
def PRODUCTS_CREDIT_CARD_ID : Nat := 3

/-- Sale status Abierto, from constants.js. -/
def SALE_STATUS_OPEN : String := "Abierto"

/-- Sale status En Proceso, from constants.js. -/
def SALE_STATUS_IN_PROCESS : String := "En Proceso"

/-- Sale status Finalizado, from constants.js. -/
def SALE_STATUS_FINISHED : String := "Finalizado"

/-- Rate lower bound VALIDATION.RATE_MIN, from constants.js. -/
def VALIDATION_RATE_MIN : Rat := 0

/-- Rate upper bound VALIDATION.RATE_MAX, from constants.js. -/
def VALIDATION_RATE_MAX : Rat := 100

/-- JavaScript truthiness of an optional integer: undefined, null and 0 are falsy. -/
def natTruthy : Option Nat → Bool
  | none => false
  | some n => n != 0

/-- JavaScript truthiness of an optional decimal: undefined, null and 0 are falsy. -/
def ratTruthy : Option Rat → Bool
  | none => false
  | some q => q != 0

/-- JavaScript truthiness of an optional string: undefined, null and the empty string are falsy. -/
def strTruthy : Option String → Bool
  | none => false
  | some s => s != ""

/-- A row of the ventas table, as declared in the Sale model. -/
structure Sale where
  id : Nat
  productoId : Nat
  cupoSolicitado : Rat
  franquiciaId : Option Nat
  tasa : Option Rat
  estado : String
  usuarioCreadorId : Nat
  usuarioActualizadorId : Nat
  createdAt : Nat
deriving DecidableEq, Repr

/-- The persistent store: the productos and franquicias catalogs are sets of
existing ids (findByPk succeeds exactly on members), the ventas table is the
ordered list of sale rows, and nextId models the autoincrement counter. -/
structure Db where
  products : List Nat
  franchises : List Nat
  sales : List Sale
  nextId : Nat
deriving DecidableEq, Repr

/-- The error kinds thrown by the services: ValidationError,
AuthorizationError and NotFoundError from utils errors, plus typeError
for a JavaScript TypeError raised by reading a property of undefined.
The sale service destructures SALE_STATUS from the constants module,
which exports only SALE_STATUSES, so that binding is undefined and
every evaluation of SALE_STATUS.OPEN and friends raises a TypeError;
the service rethrows it uncaught and it surfaces as an HTTP 500, not
as one of the taxonomy errors. -/
inductive SvcError where
  | validation (msg : String)
  | authorization (msg : String)
  | notFound (msg : String)
  | typeError (msg : String)
deriving DecidableEq, Repr

/-- Caller-supplied filters of findAllSales and calculateTotalAmount.
Dates are modelled as timestamps already parsed by new Date. -/
structure SaleFilters where
  productoId : Option Nat := none
  estado : Option String := none
  startDate : Option Nat := none
  endDate : Option Nat := none
  usuarioCreadorId : Option Nat := none
deriving DecidableEq, Repr

/-- The Sequelize where object built by buildWhereClause: an optional
equality constraint per column plus an optional createdAt range. -/
structure WhereClause where
  usuarioCreadorId : Option Nat := none
  productoId : Option Nat := none
  estado : Option String := none
  createdAtGe : Option Nat := none
  createdAtLe : Option Nat := none
deriving DecidableEq, Repr

/-- buildWhereClause of the sale service (saleService.js): advisors are
unconditionally constrained to their own sales; the caller-supplied
usuarioCreadorId filter is applied only for admins, after the role
constraint, mirroring the statement order of the source. -/
def buildWhereClause (userRolId userId : Nat) (additionalFilters : SaleFilters) : WhereClause :=
  let wc : WhereClause := {}
  let wc := if userRolId == ROLES_ADVISOR_ID then
      { wc with usuarioCreadorId := some userId } else wc
  let wc := if natTruthy additionalFilters.productoId then
      { wc with productoId := additionalFilters.productoId } else wc
  let wc := if strTruthy additionalFilters.estado then
      { wc with estado := additionalFilters.estado } else wc
  let wc := if additionalFilters.startDate.isSome || additionalFilters.endDate.isSome then
      { wc with createdAtGe := additionalFilters.startDate,
                createdAtLe := additionalFilters.endDate } else wc
  let wc := if natTruthy additionalFilters.usuarioCreadorId && (userRolId == ROLES_ADMIN_ID) then
      { wc with usuarioCreadorId := additionalFilters.usuarioCreadorId } else wc
  wc

/-- Semantics of one optional equality constraint of a where object. -/
def optFilterMatches {α : Type} [BEq α] : Option α → α → Bool
  | none, _ => true
  | some v, x => x == v

/-- Row semantics of a where object: a sale row matches when it satisfies
every constraint present in the clause (conjunction, as in SQL). -/
def saleMatches (wc : WhereClause) (s : Sale) : Bool :=
  optFilterMatches wc.usuarioCreadorId s.usuarioCreadorId &&
  optFilterMatches wc.productoId s.productoId &&
  optFilterMatches wc.estado s.estado &&
  (match wc.createdAtGe with | none => true | some d => decide (d ≤ s.createdAt)) &&
  (match wc.createdAtLe with | none => true | some d => decide (s.createdAt ≤ d))

/-- The comparison used by ORDER BY createdAt DESC: an earlier output
position has a creation time at least that of a later one. -/
def createdAtDescRel (a b : Sale) : Prop := b.createdAt ≤ a.createdAt

instance : DecidableRel createdAtDescRel :=
  fun a b => inferInstanceAs (Decidable (b.createdAt ≤ a.createdAt))

instance : IsTotal Sale createdAtDescRel :=
  ⟨fun a b => Nat.le_total b.createdAt a.createdAt⟩

instance : IsTrans Sale createdAtDescRel :=
  ⟨fun _ _ _ hab hbc => Nat.le_trans hbc hab⟩

/-- Pagination options of findAllSales; absent values default to page 1
and limit 10 inside the service. -/
structure PaginationOpts where
  page : Option Nat := none
  limit : Option Nat := none
deriving DecidableEq, Repr

/-- Result shape of findAllSales: the page of rows plus the pagination
metadata computed from the total count of matching rows. -/
structure SalesResult where
  sales : List Sale
  total : Nat
  page : Nat
  limit : Nat
deriving DecidableEq, Repr

/-- findAllSales of the sale service: builds the role-scoped where clause,
filters the ventas table by it, orders by creation time descending
(stable insertion sort, the only ORDER BY column in the source), and
applies OFFSET (page - 1) * limit and LIMIT limit. -/
def findAllSales (filters : SaleFilters) (userRolId userId : Nat)
    (pagination : PaginationOpts) (db : Db) : SalesResult :=
  let page := pagination.page.getD 1
  let limit := pagination.limit.getD 10
  let whereClause := buildWhereClause userRolId userId filters
  let offset := (page - 1) * limit
  let matching := db.sales.filter (fun s => saleMatches whereClause s)
  let sorted := matching.insertionSort createdAtDescRel
  { sales := (sorted.drop offset).take limit
    total := matching.length
    page := page
    limit := limit }

/-- calculateTotalAmount of the sale service: the SUM of cupoSolicitado
over the rows matching the same role-scoped where clause, 0 when the
set is empty. -/
def calculateTotalAmount (userRolId userId : Nat) (filters : SaleFilters) (db : Db) : Rat :=
  let whereClause := buildWhereClause userRolId userId filters
  ((db.sales.filter (fun s => saleMatches whereClause s)).map
    (fun s => s.cupoSolicitado)).sum

/-- Request body of POST sales as the service sees it: every field may be
absent; undefined and null behave identically in createNewSale. -/
structure SalePayload where
  productoId : Option Nat := none
  cupoSolicitado : Option Rat := none
  franquiciaId : Option Nat := none
  tasa : Option Rat := none
  estado : Option String := none
deriving DecidableEq, Repr

/-- The franchise value inserted by createNewSale: the supplied id when
truthy, null otherwise. -/
def franquiciaStored (fr : Option Nat) : Option Nat :=
  if natTruthy fr then fr else none

/-- The rate value inserted by createNewSale: the supplied rate when
truthy, null otherwise. -/
def tasaStored (t : Option Rat) : Option Rat :=
  if ratTruthy t then t else none

/-- createNewSale of the sale service: required-field check, product
existence, the conditional franchise and rate rules in source order,
then the insert with creator and updater both set to the caller.
The estado default of the source evaluates SALE_STATUS.OPEN on the
undefined SALE_STATUS binding, so when the supplied estado is falsy a
TypeError is raised while the insert arguments are being built and
nothing is persisted; with a truthy estado the logical-or
short-circuits and the supplied status is stored. The now argument is
the row creation timestamp. -/
def createNewSale (saleData : SalePayload) (userId : Nat) (now : Nat) (db : Db) :
    Db × Except SvcError Sale :=
  if !natTruthy saleData.productoId || !ratTruthy saleData.cupoSolicitado then
    (db, .error (.validation "Product and requested amount are required"))
  else if !db.products.contains (saleData.productoId.getD 0) then
    (db, .error (.validation "Invalid product ID"))
  else if saleData.productoId.getD 0 == PRODUCTS_CREDIT_CARD_ID &&
          !natTruthy saleData.franquiciaId then
    (db, .error (.validation "Franchise is required for credit cards"))
  else if saleData.productoId.getD 0 != PRODUCTS_CREDIT_CARD_ID &&
          natTruthy saleData.franquiciaId then
    (db, .error (.validation "Franchise is only applicable to credit cards"))
  else if natTruthy saleData.franquiciaId &&
          !db.franchises.contains (saleData.franquiciaId.getD 0) then
    (db, .error (.validation "Invalid franchise ID"))
  else if (saleData.productoId.getD 0 == PRODUCTS_CONSUMER_CREDIT_ID ||
           saleData.productoId.getD 0 == PRODUCTS_FREE_INVESTMENT_PAYROLL_ID) &&
          !ratTruthy saleData.tasa then
    (db, .error (.validation "Rate is required for credits and payrolls"))
  else if saleData.productoId.getD 0 != PRODUCTS_CONSUMER_CREDIT_ID &&
          saleData.productoId.getD 0 != PRODUCTS_FREE_INVESTMENT_PAYROLL_ID &&
          saleData.tasa.isSome then
    (db, .error (.validation "Rate is only applicable to credits and payrolls"))
  else if !strTruthy saleData.estado then
    (db, .error (.typeError "Cannot read properties of undefined (reading OPEN)"))
  else
    let sale : Sale :=
      { id := db.nextId
        productoId := saleData.productoId.getD 0
        cupoSolicitado := saleData.cupoSolicitado.getD 0
        franquiciaId := franquiciaStored saleData.franquiciaId
        tasa := tasaStored saleData.tasa
        estado := saleData.estado.getD ""
        usuarioCreadorId := userId
        usuarioActualizadorId := userId
        createdAt := now }
    ({ db with sales := db.sales ++ [sale], nextId := db.nextId + 1 }, .ok sale)

/-- Request body of PUT sales as the service sees it: productoId,
cupoSolicitado and estado are absent or a value; franquiciaId and tasa
distinguish absent (outer none) from an explicit null (inner none). -/
structure SalePatch where
  productoId : Option Nat := none
  cupoSolicitado : Option Rat := none
  franquiciaId : Option (Option Nat) := none
  tasa : Option (Option Rat) := none
  estado : Option String := none
deriving DecidableEq, Repr

/-- The updateData object assembled by updateSaleById before the merge:
a key is present exactly when the corresponding patch field survived its
per-field validation. -/
structure SaleUpdateData where
  productoId : Option Nat := none
  cupoSolicitado : Option Rat := none
  franquiciaId : Option (Option Nat) := none
  tasa : Option (Option Rat) := none
  estado : Option String := none
deriving DecidableEq, Repr

/-- The per-field validation loop of updateSaleById: product must exist,
a non-null franchise must exist; the field order follows the source.
No conditional per-product rule is applied here. The estado branch of
the source first builds its validStatuses array from the undefined
SALE_STATUS binding, so any patch that supplies estado (valid or not)
raises a TypeError before the membership check can run. -/
def buildSaleUpdateData (saleData : SalePatch) (db : Db) : Except SvcError SaleUpdateData := do
  let ud : SaleUpdateData := {}
  let ud ← match saleData.productoId with
    | none => pure ud
    | some p =>
      if db.products.contains p then pure { ud with productoId := some p }
      else throw (.validation "Invalid product ID")
  let ud := match saleData.cupoSolicitado with
    | none => ud
    | some c => { ud with cupoSolicitado := some c }
  let ud ← match saleData.franquiciaId with
    | none => pure ud
    | some (some f) =>
      if db.franchises.contains f then pure { ud with franquiciaId := some (some f) }
      else throw (.validation "Invalid franchise ID")
    | some none => pure { ud with franquiciaId := some none }
  let ud := match saleData.tasa with
    | none => ud
    | some t => { ud with tasa := some t }
  let ud ← match saleData.estado with
    | none => pure ud
    | some _ => throw (.typeError "Cannot read properties of undefined (reading OPEN)")
  pure ud

/-- True when the updateData object has no key, mirroring the
Object.keys length check of updateSaleById. -/
def saleUpdateDataEmpty (ud : SaleUpdateData) : Bool :=
  ud.productoId.isNone && ud.cupoSolicitado.isNone && ud.franquiciaId.isNone &&
  ud.tasa.isNone && ud.estado.isNone

/-- The Sequelize row update: existing fields overlaid by the keys
present in updateData. The creator column has no key in updateData. -/
def applySaleUpdate (s : Sale) (ud : SaleUpdateData) : Sale :=
  { s with
    productoId := ud.productoId.getD s.productoId
    cupoSolicitado := ud.cupoSolicitado.getD s.cupoSolicitado
    franquiciaId := ud.franquiciaId.getD s.franquiciaId
    tasa := ud.tasa.getD s.tasa
    estado := ud.estado.getD s.estado }

/-- updateSaleById of the sale service: load, NotFound when absent,
authorization for advisors, per-field validation, the empty-update
check, then the merge with updater set to the caller. -/
def updateSaleById (id : Nat) (saleData : SalePatch) (userRolId userId : Nat) (db : Db) :
    Db × Except SvcError Sale :=
  match db.sales.find? (fun s => s.id == id) with
  | none => (db, .error (.notFound "Sale not found"))
  | some sale =>
    if userRolId == ROLES_ADVISOR_ID && sale.usuarioCreadorId != userId then
      (db, .error (.authorization "You can only update your own sales"))
    else
      match buildSaleUpdateData saleData db with
      | .error e => (db, .error e)
      | .ok ud =>
        if saleUpdateDataEmpty ud then
          (db, .error (.validation "No fields to update"))
        else
          let merged := { applySaleUpdate sale ud with usuarioActualizadorId := userId }
          ({ db with sales := db.sales.map (fun t => if t.id == id then merged else t) },
           .ok merged)

/-- deleteSaleById of the sale service: load, NotFound when absent,
authorization for advisors, then the hard delete of the row. -/
def deleteSaleById (id : Nat) (userRolId userId : Nat) (db : Db) :
    Db × Except SvcError Unit :=
  match db.sales.find? (fun s => s.id == id) with
  | none => (db, .error (.notFound "Sale not found"))
  | some sale =>
    if userRolId == ROLES_ADVISOR_ID && sale.usuarioCreadorId != userId then
      (db, .error (.authorization "You can only delete your own sales"))
    else
      ({ db with sales := db.sales.eraseP (fun s => s.id == id) }, .ok ())

/-- A row of the usuarios table, with the fields the deletion path reads. -/
structure UserRec where
  id : Nat
  email : String
  rolId : Nat
deriving DecidableEq, Repr

/-- deleteUserById of the user service: load, NotFound when absent, then
the hard delete of the row. -/
def deleteUserById (id : Nat) (users : List UserRec) : Except SvcError (List UserRec) :=
  match users.find? (fun u => u.id == id) with
  | none => .error (.notFound "User not found")
  | some _ => .ok (users.eraseP (fun u => u.id == id))

/-- deleteUser of the user controller: rejects a self-delete with a
ValidationError before calling the service, then delegates. -/
def deleteUser (id : Nat) (currentUser : UserRec) (users : List UserRec) :
    List UserRec × Except SvcError Unit :=
  if id == currentUser.id then
    (users, .error (.validation "You cannot delete your own account"))
  else
    match deleteUserById id users with
    | .error e => (users, .error e)
    | .ok users2 => (users2, .ok ())

/-- The conditional tasa rule of validateSaleCreate in the validation
middleware: when the product is a credit or payroll, tasa must be
present and inside RATE_MIN to RATE_MAX; otherwise the rule is skipped. -/
def tasaCreateRuleOk (productoId : Option Nat) (tasa : Option Rat) : Bool :=
  if productoId.getD 0 == PRODUCTS_CONSUMER_CREDIT_ID ||
     productoId.getD 0 == PRODUCTS_FREE_INVESTMENT_PAYROLL_ID then
    match tasa with
    | none => false
    | some t => decide (VALIDATION_RATE_MIN ≤ t) && decide (t ≤ VALIDATION_RATE_MAX)
  else true

/-- The per-product conditional field invariant of the data model, as the
Sale model header and the create path state it: a credit card sale
carries a franchise and no rate; a credit or payroll sale carries a
rate and no franchise. -/
def conditionalFieldsOk (s : Sale) : Bool :=
  (if s.productoId == PRODUCTS_CREDIT_CARD_ID then
     s.franquiciaId.isSome && s.tasa.isNone else true) &&
  (if s.productoId == PRODUCTS_CONSUMER_CREDIT_ID ||
      s.productoId == PRODUCTS_FREE_INVESTMENT_PAYROLL_ID then
     s.tasa.isSome && s.franquiciaId.isNone else true)

/-- The ordering the specification asserts for sale listings: creation
time descending with ties broken by id descending. Stated from the
specification for comparison with the embedded findAllSales. -/
def orderedByCreatedAtThenIdDesc (l : List Sale) : Prop :=
  l.Pairwise (fun a b => b.createdAt < a.createdAt ∨
    (b.createdAt = a.createdAt ∧ b.id < a.id))

/-- A store seeded like the migrations: the three products, the three
franchises, and an empty ventas table. -/
def seedDb : Db :=
  { products := [1, 2, 3], franchises := [1, 2, 3], sales := [], nextId := 1 }

/-- A consumer-credit sale created by user 7, used as concrete fixture. -/
def saleByUser7 : Sale :=
  { id := 1, productoId := 1, cupoSolicitado := 5000000, franquiciaId := none,
    tasa := some 15, estado := "Abierto", usuarioCreadorId := 7,
    usuarioActualizadorId := 7, createdAt := 10 }

/-- The seeded store holding exactly the sale of user 7. -/
def dbWithSaleByUser7 : Db :=
  { seedDb with sales := [saleByUser7], nextId := 2 }

/-- The merged row produced when an admin with id 5 repoints the sale of
user 7 to the credit-card product: product changed, rate kept, no
franchise. -/
def mergedCreditCardSale : Sale :=
  { saleByUser7 with productoId := 3, usuarioActualizadorId := 5 }

/-- Fixture sale with creation time 5 and id 1. -/
def tieSaleA : Sale :=
  { id := 1, productoId := 1, cupoSolicitado := 100, franquiciaId := none,
    tasa := some 10, estado := "Abierto", usuarioCreadorId := 7,
    usuarioActualizadorId := 7, createdAt := 5 }

/-- Fixture sale with the same creation time 5 but id 2. -/
def tieSaleB : Sale := { tieSaleA with id := 2 }

/-- A store holding two sales with equal creation time, stored with the
smaller id first. -/
def tieDb : Db := { seedDb with sales := [tieSaleA, tieSaleB], nextId := 3 }

/-- The seeded admin account, used as concrete fixture. -/
def adminUser : UserRec := { id := 1, email := "admin@bank.com", rolId := 1 }

/-- Fixture request body: a credit-card sale with franchise VISA and no
estado, the shape the spec says defaults the status to Open. -/
def ccPayload : SalePayload :=
  { productoId := some 3, cupoSolicitado := some 2000000, franquiciaId := some 2 }

/-- The same fixture request body with the status supplied explicitly,
which keeps the insert away from the undefined SALE_STATUS binding. -/
def ccPayloadOpen : SalePayload := { ccPayload with estado := some "Abierto" }

/-- The row the fixture credit-card creation stores in the seeded store. -/
def ccStoredSale : Sale :=
  { id := 1, productoId := 3, cupoSolicitado := 2000000, franquiciaId := some 2,
    tasa := none, estado := "Abierto", usuarioCreadorId := 7,
    usuarioActualizadorId := 7, createdAt := 10 }

/-- Fixture request body: a consumer-credit sale with rate zero. -/
def rateZeroPayload : SalePayload :=
  { productoId := some 1, cupoSolicitado := some 5000000, tasa := some 0 }

/-! ## Shared lemmas -/

/-- For an advisor caller the built where clause always constrains the
creator column to the caller, whatever filters were supplied: the
admin-only override branch of buildWhereClause cannot fire. -/
theorem buildWhereClause_advisor_usuarioCreadorId (userId : Nat) (f : SaleFilters) :
    (buildWhereClause ROLES_ADVISOR_ID userId f).usuarioCreadorId = some userId := by
  simp only [buildWhereClause, ROLES_ADVISOR_ID, ROLES_ADMIN_ID]
  split <;> split <;> split <;> split <;> split <;> simp_all

/-- A sale matching a where clause whose creator constraint is the
caller has that caller as creator. -/
theorem saleMatches_usuarioCreadorId {wc : WhereClause} {uid : Nat} {s : Sale}
    (hwc : wc.usuarioCreadorId = some uid) (hm : saleMatches wc s = true) :
    s.usuarioCreadorId = uid := by
  rw [saleMatches, hwc] at hm
  simp only [Bool.and_eq_true, optFilterMatches] at hm
  simpa using hm.1.1.1.1

/-! ## Claim theorems -/

/-- C1: every sale returned by findAllSales to an advisor caller, and
every sale matching the scoped predicate used by the aggregate
functions, has the caller as creator, for all caller-supplied filters,
including a caller-supplied usuarioCreadorId filter. -/
theorem advisor_scope_sales_reads (f : SaleFilters) (uid : Nat)
    (pag : PaginationOpts) (db : Db) :
    (∀ s ∈ (findAllSales f ROLES_ADVISOR_ID uid pag db).sales, s.usuarioCreadorId = uid) ∧
    (∀ s ∈ db.sales.filter
        (fun s => saleMatches (buildWhereClause ROLES_ADVISOR_ID uid f) s),
      s.usuarioCreadorId = uid) := by
  have hfilter : ∀ s ∈ db.sales.filter
      (fun s => saleMatches (buildWhereClause ROLES_ADVISOR_ID uid f) s),
      s.usuarioCreadorId = uid := by
    intro s hs
    exact saleMatches_usuarioCreadorId (buildWhereClause_advisor_usuarioCreadorId uid f)
      (List.of_mem_filter hs)
  refine ⟨?_, hfilter⟩
  intro s hs
  apply hfilter
  simp only [findAllSales] at hs
  have h1 := List.mem_of_mem_take hs
  have h2 := List.mem_of_mem_drop h1
  exact (List.mem_insertionSort createdAtDescRel).mp h2

/-- The advisor listing on the fixture store returns exactly the fixture
sale; used to discharge the membership hypothesis of the C1 witness. -/
theorem findAllSales_fixture_eval :
    (findAllSales {} ROLES_ADVISOR_ID 7 {} dbWithSaleByUser7).sales = [saleByUser7] := rfl

/-- Witness for C1: the fixture sale is returned to advisor 7 and indeed
has creator 7. -/
theorem advisor_scope_sales_reads_witness :
    saleByUser7 ∈ (findAllSales {} ROLES_ADVISOR_ID 7 {} dbWithSaleByUser7).sales ∧
    saleByUser7.usuarioCreadorId = 7 :=
  ⟨by rw [findAllSales_fixture_eval]; exact List.mem_singleton_self _,
   (advisor_scope_sales_reads {} 7 {} dbWithSaleByUser7).1 saleByUser7
     (by rw [findAllSales_fixture_eval]; exact List.mem_singleton_self _)⟩

/-- C3: evaluation at a fully valid credit-card creation. Without an
estado the insert path evaluates SALE_STATUS.OPEN on the undefined
SALE_STATUS binding: the call fails with a TypeError, not a
ValidationFailure, and persists nothing. With the estado supplied the
same payload persists a row with the existing franchise, null rate and
the conditional field rules satisfied. -/
theorem create_missing_estado_typeerror :
    (createNewSale ccPayload 7 10 seedDb).2 =
      .error (.typeError "Cannot read properties of undefined (reading OPEN)") ∧
    (createNewSale ccPayload 7 10 seedDb).1 = seedDb ∧
    (createNewSale ccPayloadOpen 7 10 seedDb).2 = .ok ccStoredSale ∧
    (createNewSale ccPayloadOpen 7 10 seedDb).1.sales = seedDb.sales ++ [ccStoredSale] ∧
    conditionalFieldsOk ccStoredSale = true :=
  ⟨rfl, rfl, rfl, rfl, rfl⟩

/-- C2: evaluation showing that updateSaleById does not re-apply the
conditional field rules to the merged record. An admin repoints the
consumer-credit sale of user 7 to the credit-card product without
supplying a franchise: the update succeeds and persists a merged row
that is a credit card with no franchise and a leftover rate, which the
create path would reject. -/
theorem update_skips_merged_validation :
    (updateSaleById 1 { productoId := some 3 } ROLES_ADMIN_ID 5 dbWithSaleByUser7).2 =
      .ok mergedCreditCardSale ∧
    (updateSaleById 1 { productoId := some 3 } ROLES_ADMIN_ID 5 dbWithSaleByUser7).1.sales =
      [mergedCreditCardSale] ∧
    mergedCreditCardSale.productoId = PRODUCTS_CREDIT_CARD_ID ∧
    mergedCreditCardSale.franquiciaId = none ∧
    mergedCreditCardSale.tasa = some 15 ∧
    conditionalFieldsOk mergedCreditCardSale = false :=
  ⟨rfl, rfl, rfl, rfl, rfl, rfl⟩

/-- C4: evaluation at the boundary rate zero. The validation middleware
rule accepts a zero rate for a consumer credit, but createNewSale
rejects it with the message reserved for an absent rate, because the
JavaScript truthiness test treats 0 like undefined. The store is
unchanged. -/
theorem create_rate_zero_rejected :
    tasaCreateRuleOk rateZeroPayload.productoId rateZeroPayload.tasa = true ∧
    (createNewSale rateZeroPayload 7 10 seedDb).2 =
      .error (.validation "Rate is required for credits and payrolls") ∧
    (createNewSale rateZeroPayload 7 10 seedDb).1 = seedDb :=
  ⟨rfl, rfl, rfl⟩

/-- Every successful creation stores the caller as creator and updater. -/
theorem createNewSale_ok_creator (sd : SalePayload) (uid now : Nat) (db : Db) :
    ∀ s, (createNewSale sd uid now db).2 = .ok s →
      s.usuarioCreadorId = uid ∧ s.usuarioActualizadorId = uid := by
  unfold createNewSale
  repeat' split
  all_goals intro s hs
  all_goals first
    | exact Except.noConfusion hs
    | (injection hs with h; subst h; exact ⟨rfl, rfl⟩)

/-- Every successful update keeps the creator of the existing row and
stores the caller as updater. -/
theorem updateSaleById_ok_creator (id : Nat) (patch : SalePatch) (role uid2 : Nat) (db2 : Db) :
    ∀ s0 s1, db2.sales.find? (fun t => t.id == id) = some s0 →
      (updateSaleById id patch role uid2 db2).2 = .ok s1 →
      s1.usuarioCreadorId = s0.usuarioCreadorId ∧ s1.usuarioActualizadorId = uid2 := by
  intro s0 s1 hfind hok
  unfold updateSaleById at hok
  rw [hfind] at hok
  split at hok
  · exact Except.noConfusion hok
  next sale hsome =>
    injection hsome with hs0
    subst hs0
    split at hok
    · exact Except.noConfusion hok
    · split at hok
      · exact Except.noConfusion hok
      · split at hok
        · exact Except.noConfusion hok
        · injection hok with h
          subst h
          exact ⟨rfl, rfl⟩

/-- C5: usuarioCreadorId is set to the acting user at creation and is
untouched by every successful update, while usuarioActualizadorId is
set to the acting user on create and on every successful update. -/
theorem creator_set_once_updater_every_write (sd : SalePayload) (uid now : Nat) (db : Db)
    (id : Nat) (patch : SalePatch) (role uid2 : Nat) (db2 : Db) :
    (∀ s, (createNewSale sd uid now db).2 = .ok s →
      s.usuarioCreadorId = uid ∧ s.usuarioActualizadorId = uid) ∧
    (∀ s0 s1, db2.sales.find? (fun t => t.id == id) = some s0 →
      (updateSaleById id patch role uid2 db2).2 = .ok s1 →
      s1.usuarioCreadorId = s0.usuarioCreadorId ∧ s1.usuarioActualizadorId = uid2) :=
  ⟨createNewSale_ok_creator sd uid now db,
   updateSaleById_ok_creator id patch role uid2 db2⟩

/-- Witness for C5: the fixture creation stores creator and updater 7;
the fixture update by admin 5 keeps creator 7 and stores updater 5. -/
theorem creator_set_once_updater_every_write_witness :
    (ccStoredSale.usuarioCreadorId = 7 ∧ ccStoredSale.usuarioActualizadorId = 7) ∧
    (mergedCreditCardSale.usuarioCreadorId = saleByUser7.usuarioCreadorId ∧
     mergedCreditCardSale.usuarioActualizadorId = 5) :=
  ⟨(creator_set_once_updater_every_write ccPayloadOpen 7 10 seedDb 1 { productoId := some 3 }
      ROLES_ADMIN_ID 5 dbWithSaleByUser7).1 ccStoredSale rfl,
   (creator_set_once_updater_every_write ccPayloadOpen 7 10 seedDb 1 { productoId := some 3 }
      ROLES_ADMIN_ID 5 dbWithSaleByUser7).2 saleByUser7 mergedCreditCardSale rfl rfl⟩

/-- C6: for an advisor caller, an update or delete on a missing sale id
fails with NotFound, and on an existing sale created by someone else it
fails with an AuthorizationError; in both cases the store is returned
unchanged. -/
theorem advisor_foreign_update_delete_forbidden (id uid : Nat) (patch : SalePatch) (db : Db) :
    (db.sales.find? (fun s => s.id == id) = none →
      updateSaleById id patch ROLES_ADVISOR_ID uid db =
        (db, .error (.notFound "Sale not found")) ∧
      deleteSaleById id ROLES_ADVISOR_ID uid db =
        (db, .error (.notFound "Sale not found"))) ∧
    (∀ s, db.sales.find? (fun t => t.id == id) = some s → s.usuarioCreadorId ≠ uid →
      updateSaleById id patch ROLES_ADVISOR_ID uid db =
        (db, .error (.authorization "You can only update your own sales")) ∧
      deleteSaleById id ROLES_ADVISOR_ID uid db =
        (db, .error (.authorization "You can only delete your own sales"))) := by
  constructor
  · intro hnone
    constructor
    · simp only [updateSaleById, hnone]
    · simp only [deleteSaleById, hnone]
  · intro s hfind hne
    have hcond : (ROLES_ADVISOR_ID == ROLES_ADVISOR_ID && s.usuarioCreadorId != uid) = true := by
      simp [hne]
    constructor
    · simp only [updateSaleById, hfind, hcond, if_true]
    · simp only [deleteSaleById, hfind, hcond, if_true]

/-- Witness for C6: advisor 9 hits NotFound on the empty store and an
AuthorizationError on the sale created by user 7. -/
theorem advisor_foreign_update_delete_forbidden_witness :
    (updateSaleById 1 { estado := some "Finalizado" } ROLES_ADVISOR_ID 9 seedDb =
      (seedDb, .error (.notFound "Sale not found"))) ∧
    (updateSaleById 1 { estado := some "Finalizado" } ROLES_ADVISOR_ID 9 dbWithSaleByUser7 =
      (dbWithSaleByUser7, .error (.authorization "You can only update your own sales"))) ∧
    (deleteSaleById 1 ROLES_ADVISOR_ID 9 dbWithSaleByUser7 =
      (dbWithSaleByUser7, .error (.authorization "You can only delete your own sales"))) :=
  ⟨((advisor_foreign_update_delete_forbidden 1 9 { estado := some "Finalizado" } seedDb).1
      rfl).1,
   ((advisor_foreign_update_delete_forbidden 1 9 { estado := some "Finalizado" }
      dbWithSaleByUser7).2 saleByUser7 rfl (by decide)).1,
   ((advisor_foreign_update_delete_forbidden 1 9 { estado := some "Finalizado" }
      dbWithSaleByUser7).2 saleByUser7 rfl (by decide)).2⟩

/-- C7: a delete-user request whose target is the calling admin itself
fails with a ValidationError before the service delete runs, and the
user table is returned unchanged. -/
theorem admin_self_delete_validation (id : Nat) (cu : UserRec) (users : List UserRec)
    (h : id = cu.id) :
    deleteUser id cu users =
      (users, .error (.validation "You cannot delete your own account")) := by
  unfold deleteUser
  simp [h]

/-- Witness for C7: the seeded admin deleting their own id 1. -/
theorem admin_self_delete_validation_witness :
    (1 : Nat) = adminUser.id ∧
    deleteUser 1 adminUser [adminUser] =
      ([adminUser], .error (.validation "You cannot delete your own account")) :=
  ⟨rfl, admin_self_delete_validation 1 adminUser [adminUser] rfl⟩

/-- C10: an authorized update on an existing sale whose patch carries
none of the recognized fields fails with the ValidationError No fields
to update, and the store, including the stored row, is returned
unchanged. -/
theorem empty_patch_update_rejected (id uid role : Nat) (db : Db) (s : Sale) (p : SalePatch)
    (hp1 : p.productoId = none) (hp2 : p.cupoSolicitado = none)
    (hp3 : p.franquiciaId = none) (hp4 : p.tasa = none) (hp5 : p.estado = none)
    (hfind : db.sales.find? (fun t => t.id == id) = some s)
    (hauth : (role == ROLES_ADVISOR_ID && s.usuarioCreadorId != uid) = false) :
    updateSaleById id p role uid db = (db, .error (.validation "No fields to update")) := by
  have hp : p = {} := by
    cases p
    simp_all
  subst hp
  have hbuild : buildSaleUpdateData {} db = .ok {} := rfl
  have hempty : saleUpdateDataEmpty {} = true := rfl
  simp only [updateSaleById, hfind, hauth, hbuild, hempty, Bool.false_eq_true, if_false,
    if_true]

/-- Witness for C10: admin 5 sends an empty patch for the existing
fixture sale and receives the No fields to update failure. -/
theorem empty_patch_update_rejected_witness :
    dbWithSaleByUser7.sales.find? (fun t => t.id == 1) = some saleByUser7 ∧
    updateSaleById 1 {} ROLES_ADMIN_ID 5 dbWithSaleByUser7 =
      (dbWithSaleByUser7, .error (.validation "No fields to update")) :=
  ⟨rfl, empty_patch_update_rejected 1 5 ROLES_ADMIN_ID dbWithSaleByUser7 saleByUser7 {}
    rfl rfl rfl rfl rfl rfl rfl⟩

/-- C8: for every caller and every filter combination, the total of
calculateTotalAmount equals the sum of cupoSolicitado over the items
returned by findAllSales with the same filters and caller on page 1
with a limit covering the whole table: both reuse the predicate of
buildWhereClause. -/
theorem total_amount_eq_scoped_list_sum (f : SaleFilters) (role uid : Nat) (db : Db) :
    calculateTotalAmount role uid f db =
      ((findAllSales f role uid { page := some 1, limit := some db.sales.length }
        db).sales.map (fun s => s.cupoSolicitado)).sum := by
  unfold calculateTotalAmount findAllSales
  simp only [Option.getD_some]
  have h0 : (1 - 1) * db.sales.length = 0 := by omega
  rw [h0, List.drop_zero]
  have hlen : ((db.sales.filter
      (fun s => saleMatches (buildWhereClause role uid f) s)).insertionSort
        createdAtDescRel).length ≤ db.sales.length := by
    rw [List.length_insertionSort]
    exact List.length_filter_le _ _
  rw [List.take_of_length_le hlen]
  exact (((List.perm_insertionSort createdAtDescRel _).map _).sum_eq).symm

/-- C9 counterexample: with two stored sales sharing a creation time and
stored in ascending id order, the listing returns them in storage
order, not in the id-descending tie order the claim asserts. -/
theorem list_order_no_id_tiebreak_counterexample :
    (findAllSales {} ROLES_ADMIN_ID 9 {} tieDb).sales = [tieSaleA, tieSaleB] ∧
    tieSaleA.createdAt = tieSaleB.createdAt ∧
    tieSaleA.id < tieSaleB.id ∧
    ¬ orderedByCreatedAtThenIdDesc (findAllSales {} ROLES_ADMIN_ID 9 {} tieDb).sales := by
  have hsales : (findAllSales {} ROLES_ADMIN_ID 9 {} tieDb).sales =
      [tieSaleA, tieSaleB] := rfl
  refine ⟨hsales, rfl, by decide, ?_⟩
  intro h
  unfold orderedByCreatedAtThenIdDesc at h
  rw [hsales] at h
  have h2 := (List.pairwise_cons.mp h).1 tieSaleB (List.mem_cons_self _ _)
  revert h2
  decide

/-- C9 amended: the items returned by findAllSales are ordered by
creation time descending, on every scoped result set and pagination
window; the source orders by no other column, so ties on creation time
keep their storage order rather than an id-descending order. -/
theorem list_order_createdAt_desc (f : SaleFilters) (role uid : Nat)
    (pag : PaginationOpts) (db : Db) :
    (findAllSales f role uid pag db).sales.Pairwise
      (fun a b => b.createdAt ≤ a.createdAt) := by
  unfold findAllSales
  have hs := List.sorted_insertionSort createdAtDescRel
    (db.sales.filter (fun s => saleMatches (buildWhereClause role uid f) s))
  exact List.Pairwise.sublist
    ((List.take_sublist _ _).trans (List.drop_sublist _ _)) hs

end ProductsBank
